import Mathlib

/-!
Shallow embedding of `src/code_environment.py` (sandboxed execution engine):
the restricted environment builder (`_open_ro_conn`, `_safe_builtins`,
`run_user_code` with its `sql`/`scalar` helpers) and the isolated execution
supervisor (`_worker_run_code`, `run_user_code_with_timeout`).
-/

namespace CodeEnv

/-- Python runtime values as far as the sandbox manipulates them:
`None`, booleans, integers, strings, lists, dicts (insertion-ordered
association lists), and opaque host objects (modules, functions, the
connection handle), identified by name. -/
inductive Value where
  | none : Value
  | bool (b : Bool) : Value
  | int (n : Int) : Value
  | str (s : String) : Value
  | list (vs : List Value) : Value
  | dict (kvs : List (String × Value)) : Value
  | obj (name : String) : Value

/-- One result row as `sqlite3.Row` presents it: an ordered sequence of
(column name, value) pairs. -/
def Row : Type := List (String × Value)

/-- Python truthiness (`bool(v)`) for the values above. -/
def pyTruthy : Value → Bool
  | Value.none => false
  | Value.bool b => b
  | Value.int n => n != 0
  | Value.str s => s != ""
  | Value.list vs => !vs.isEmpty
  | Value.dict kvs => !kvs.isEmpty
  | Value.obj _ => true

/-- Python `str(v)` for the values the engine passes to `str` (failure
descriptions are strings; the other cases are rendered in the obvious way,
`None`/`True`/`False`/decimal integers as CPython prints them). -/
def pyStr : Value → String
  | Value.none => "None"
  | Value.bool true => "True"
  | Value.bool false => "False"
  | Value.int n => toString n
  | Value.str s => s
  | Value.list _ => "<list>"
  | Value.dict _ => "<dict>"
  | Value.obj name => name

/-- The `params` argument of `sql`/`scalar` as a Python runtime object:
the `isinstance(params, (list, tuple))` test distinguishes lists and tuples
from every other value (`other` covers bare scalars, strings, dicts, ...). -/
inductive Params where
  | list (vs : List Value) : Params
  | tuple (vs : List Value) : Params
  | other (v : Value) : Params

/-- `params if isinstance(params, (list, tuple)) else (params,)` from the
bodies of `sql` and `scalar` (code_environment.py lines 69 and 73): a
non-list, non-tuple argument is wrapped into a one-element tuple. -/
def normalizeParams : Params → List Value
  | Params.list vs => vs
  | Params.tuple vs => vs
  | Params.other v => [v]

/-- `sql(query, params)` from `run_user_code`: execute the parameterized
statement (the connection's statement evaluator is the `execQuery`
parameter) and turn every fetched row into a dict
(`[dict(r) for r in cur.fetchall()]`). -/
def sqlHelper (execQuery : String → List Value → List Row)
    (query : String) (params : Params) : List Value :=
  (execQuery query (normalizeParams params)).map Value.dict

/-- `row[0] if len(row.keys()) == 1 else dict(row)` applied to
`cur.fetchone()`: `None` on an empty result set, the first row's single
column value when it projects exactly one column, the first row as a dict
otherwise. -/
def scalarOfRows : List Row → Value
  | [] => Value.none
  | row :: _ =>
    match row with
    | [single] => single.2
    | _ => Value.dict row

/-- `scalar(query, params)` from `run_user_code`. -/
def scalarHelper (execQuery : String → List Value → List Row)
    (query : String) (params : Params) : Value :=
  scalarOfRows (execQuery query (normalizeParams params))

/-- The read-only connection `_open_ro_conn` produces, as far as the sandbox
observes it: the URI it was opened with, the open mode carried by that URI,
and whether `PRAGMA query_only = ON` took effect (it does on the normal
path; the `try/except` around it only tolerates ancient SQLite builds). -/
structure SqliteConn where
  uri : String
  mode : String
  queryOnly : Bool

/-- `_open_ro_conn(db_path)` (code_environment.py lines 18-29): resolve the
path with Python `or` (so `None` and the empty string both fall back to the
default from `src/db.py`, which is environment-configured and therefore a
parameter here), open `file:<path>?mode=ro` as a URI, and set
`PRAGMA query_only = ON`. -/
def openRoConn (defaultDbPath : String) (dbPath : Option String) : SqliteConn :=
  let path := match dbPath with
    | some p => if p = "" then defaultDbPath else p
    | Option.none => defaultDbPath
  { uri := "file:" ++ path ++ "?mode=ro", mode := "ro", queryOnly := true }

/-- A statement submitted through the connection, already classified into
reads (SELECT/PRAGMA queries) and writes (INSERT/UPDATE/DELETE/DDL). -/
inductive SqlStmt where
  | read (text : String) : SqlStmt
  | write (text : String) : SqlStmt

def SqlStmt.isWrite : SqlStmt → Bool
  | SqlStmt.read _ => false
  | SqlStmt.write _ => true

/-- The relational store: named tables of rows. -/
def Store : Type := List (String × List Row)

/-- Modelled from the spec: SQLite itself is not part of this repository, so
its execution semantics follow spec sections 4.1 and 8 — a connection opened
connection-level read-only (mode `ro`) or with session-level `query_only`
rejects every write/DDL statement with an error and leaves the store
unchanged; reads never change the store; only on a writable connection does
a write take effect (via the `applyWrite` parameter). -/
def execStmt (applyWrite : Store → String → Store) (c : SqliteConn)
    (store : Store) (s : SqlStmt) : Except String Store :=
  match s with
  | SqlStmt.read _ => Except.ok store
  | SqlStmt.write text =>
    if c.mode = "ro" ∨ c.queryOnly then
      Except.error "attempt to write a readonly database"
    else
      Except.ok (applyWrite store text)

/-- Issue a sequence of statements on one connection; a statement that is
rejected with an error leaves the store as it was and the session moves on
to the next statement. -/
def runStmts (applyWrite : Store → String → Store) (c : SqliteConn)
    (store : Store) : List SqlStmt → Store
  | [] => store
  | s :: rest =>
    match execStmt applyWrite c store s with
    | Except.ok store2 => runStmts applyWrite c store2 rest
    | Except.error _ => runStmts applyWrite c store rest

/-- `_safe_builtins()` (code_environment.py lines 32-54): the allowlisted
builtin table, in source order. -/
def safeBuiltins : List (String × Value) :=
  [("print", Value.obj "print"),
   ("abs", Value.obj "abs"),
   ("min", Value.obj "min"),
   ("max", Value.obj "max"),
   ("sum", Value.obj "sum"),
   ("len", Value.obj "len"),
   ("range", Value.obj "range"),
   ("enumerate", Value.obj "enumerate"),
   ("list", Value.obj "list"),
   ("dict", Value.obj "dict"),
   ("set", Value.obj "set"),
   ("tuple", Value.obj "tuple"),
   ("sorted", Value.obj "sorted"),
   ("any", Value.obj "any"),
   ("all", Value.obj "all"),
   ("zip", Value.obj "zip"),
   ("map", Value.obj "map"),
   ("filter", Value.obj "filter"),
   ("round", Value.obj "round")]

def safeBuiltinNames : List String := safeBuiltins.map Prod.fst

/-- The execution namespace: a Python dict from names to values. -/
def Env : Type := List (String × Value)

/-- `env.get(key)` on the namespace: first binding wins (Python dicts hold
each key once; the builder inserts distinct keys). -/
def envLookup : Env → String → Option Value
  | [], _ => Option.none
  | (k, v) :: rest, key => if k = key then some v else envLookup rest key

/-- The `env` dict built by `run_user_code` (code_environment.py lines
78-91), in source order: the safe builtins, the pre-bound `math` /
`statistics` / `json` / `re` modules, the raw read-only connection `conn`,
the `sql` and `scalar` helpers, the caller's `args`, and the `result` slot
initialized to `None`. -/
def initialEnv (args : Value) : Env :=
  [("__builtins__", Value.dict safeBuiltins),
   ("math", Value.obj "math"),
   ("statistics", Value.obj "statistics"),
   ("json", Value.obj "json"),
   ("re", Value.obj "re"),
   ("conn", Value.obj "conn"),
   ("sql", Value.obj "sql"),
   ("scalar", Value.obj "scalar"),
   ("args", args),
   ("result", Value.none)]

/-- The names the spec's enumeration of the snippet namespace covers: the
builtin table, the four pre-bound modules, the two data-access helpers,
`args` and `result` (spec sections 3 and 4.1, which list no other entry). -/
def specEnumeratedNames : List String :=
  ["__builtins__", "math", "statistics", "json", "re",
   "sql", "scalar", "args", "result"]

/-- The `{stdout, result}` dict `run_user_code` returns on success. -/
structure RunOut where
  stdout : String
  result : Value

/-- `run_user_code` (code_environment.py lines 57-107): build the initial
namespace, run the snippet in it with stdout redirected into a buffer
(`exec(code, env, env)` — the snippet is modelled as a function from the
namespace to either a raised-error description or the final namespace plus
the captured stdout), then return `{"stdout": ..., "result":
env.get("result", None)}`. A raised error propagates to the caller. -/
def runUserCode (snippet : Env → Except String (Env × String))
    (args : Value) : Except String RunOut :=
  match snippet (initialEnv args) with
  | Except.error e => Except.error e
  | Except.ok (env2, out) =>
    Except.ok { stdout := out, result := (envLookup env2 "result").getD Value.none }

/-- A message on the worker-to-supervisor queue. The worker only ever puts
dicts, but the supervisor's code also tests `isinstance(msg, dict)`, so the
model keeps a constructor for a non-mapping message. A dict message is
described by the values at the keys the supervisor consults: `ok`, `error`
and `data` (each `Option`, for an absent key). -/
inductive QMsg where
  | pyDict (okField : Option Value) (errorField : Option Value)
      (dataField : Option RunOut) : QMsg
  | notDict : QMsg

/-- `msg.get(key)` truthiness: absent key gives `None`, which is falsy. -/
def truthyOpt : Option Value → Bool
  | Option.none => false
  | some v => pyTruthy v

/-- `_worker_run_code` (code_environment.py lines 110-119): run the user
code; on success cap `out["stdout"]` to its first 10000 characters and put
`{"ok": True, "data": out}`; if anything raised, put
`{"ok": False, "error": str(e)}`. Exactly one message is put either way. -/
def capStdout (s : String) : String := String.mk (s.data.take 10000)

def workerMsg (r : Except String RunOut) : QMsg :=
  match r with
  | Except.ok out =>
    QMsg.pyDict (some (Value.bool true)) Option.none
      (some { stdout := capStdout out.stdout, result := out.result })
  | Except.error e =>
    QMsg.pyDict (some (Value.bool false)) (some (Value.str e)) Option.none

/-- What the supervisor observes after `p.join(timeout_sec)`: the worker is
still alive (timeout), or it exited with an empty queue, or a message is
available on the queue. -/
inductive WorkerObs where
  | stillRunning : WorkerObs
  | exitedEmpty : WorkerObs
  | received (m : QMsg) : WorkerObs

/-- The final outcome dict `run_user_code_with_timeout` returns:
`{result, stdout}` on success (no `error` key) or
`{result, stdout, error}` when synthesized. -/
structure Outcome where
  result : Value
  stdout : String
  error : Option String

/-- `run_user_code_with_timeout` (code_environment.py lines 122-145) after
the join, as a function of the observation and of the timeout duration (a
`Nat`, rendered by `str` exactly as a Python int is in the f-string):
 * worker still alive → terminate it, join 1s, return
   `{"result": None, "stdout": "", "error": f"timeout after \x7btimeout_sec\x7ds"}`;
 * queue empty → `{"result": None, "stdout": "", "error": "no result (crash or empty output)"}`;
 * `not isinstance(msg, dict) or not msg.get("ok")` → return
   `{"result": None, "stdout": "", "error": str(msg.get("error", "unknown error"))}`,
   except that on a non-mapping `msg` the attribute access `msg.get` itself
   raises `AttributeError`, modelled as `Except.error`;
 * otherwise → `return msg["data"]` (a `KeyError` if `data` is absent). -/
def supervise (obs : WorkerObs) (timeoutSec : Nat) : Except String Outcome :=
  match obs with
  | WorkerObs.stillRunning =>
    Except.ok { result := Value.none, stdout := "",
                error := some ("timeout after " ++ toString timeoutSec ++ "s") }
  | WorkerObs.exitedEmpty =>
    Except.ok { result := Value.none, stdout := "",
                error := some "no result (crash or empty output)" }
  | WorkerObs.received m =>
    match m with
    | QMsg.notDict =>
      Except.error "AttributeError: object has no attribute get"
    | QMsg.pyDict okField errorField dataField =>
      if truthyOpt okField then
        match dataField with
        | some d => Except.ok { result := d.result, stdout := d.stdout, error := Option.none }
        | Option.none => Except.error "KeyError: data"
      else
        Except.ok { result := Value.none, stdout := "",
                    error := some (pyStr (errorField.getD (Value.str "unknown error"))) }

/-- Rejected statements on a connection opened read-only leave the store
untouched, one after the other. -/
theorem runStmts_ro_unchanged (applyWrite : Store → String → Store)
    (c : SqliteConn) (h : c.mode = "ro") (store : Store) :
    ∀ stmts : List SqlStmt, (∀ s ∈ stmts, s.isWrite = true) →
      runStmts applyWrite c store stmts = store := by
  intro stmts
  induction stmts with
  | nil => intro _; rfl
  | cons s rest ih =>
    intro hw
    have hs := hw s (List.mem_cons_self s rest)
    have hrest : ∀ x ∈ rest, x.isWrite = true :=
      fun x hx => hw x (List.mem_cons_of_mem s hx)
    cases s with
    | read text => simp [SqlStmt.isWrite] at hs
    | write text =>
      have hexec : execStmt applyWrite c store (SqlStmt.write text) =
          Except.error "attempt to write a readonly database" := by
        simp [execStmt, h]
      simp only [runStmts, hexec]
      exact ih hrest

/-- C1: when the worker is still running after the timeout, the supervisor
returns the synthesized outcome with `result = None`, `stdout = ""` and
`error = "timeout after <duration>s"`; that error always starts with
"timeout", and for duration 1 it is exactly "timeout after 1s". -/
theorem timeout_branch (t : Nat) :
    supervise WorkerObs.stillRunning t =
      Except.ok { result := Value.none, stdout := "",
                  error := some ("timeout after " ++ toString t ++ "s") } ∧
    (∃ rest, "timeout after " ++ toString t ++ "s" = "timeout" ++ rest) ∧
    supervise WorkerObs.stillRunning 1 =
      Except.ok { result := Value.none, stdout := "",
                  error := some "timeout after 1s" } := by
  refine ⟨rfl, ?_, rfl⟩
  exact ⟨" after " ++ toString t ++ "s",
    by rw [← String.append_assoc, ← String.append_assoc]; rfl⟩

/-- C2: the handle `_open_ro_conn` builds is connection-level read-only and
session-level query-only; every write/DDL statement issued through it is
rejected with an error, and the store is unchanged even after a whole
sequence of rejected writes. -/
theorem readonly_store_immutable (defaultDbPath : String) (dbPath : Option String)
    (applyWrite : Store → String → Store) (store : Store) (stmts : List SqlStmt)
    (hw : ∀ s ∈ stmts, s.isWrite = true) :
    (openRoConn defaultDbPath dbPath).mode = "ro" ∧
    (openRoConn defaultDbPath dbPath).queryOnly = true ∧
    (∀ s ∈ stmts, execStmt applyWrite (openRoConn defaultDbPath dbPath) store s =
      Except.error "attempt to write a readonly database") ∧
    runStmts applyWrite (openRoConn defaultDbPath dbPath) store stmts = store := by
  refine ⟨rfl, rfl, ?_, ?_⟩
  · intro s hs
    cases s with
    | read text => have := hw _ hs; simp [SqlStmt.isWrite] at this
    | write text => simp [execStmt, openRoConn]
  · exact runStmts_ro_unchanged applyWrite _ rfl store stmts hw

theorem readonly_store_immutable_witness :
    (openRoConn "za.sqlite3" Option.none).mode = "ro" ∧
    (openRoConn "za.sqlite3" Option.none).queryOnly = true ∧
    (∀ s ∈ [SqlStmt.write "DROP TABLE pokemons", SqlStmt.write "DELETE FROM pokemons"],
      execStmt (fun _ _ => []) (openRoConn "za.sqlite3" Option.none) [("pokemons", [])] s =
        Except.error "attempt to write a readonly database") ∧
    runStmts (fun _ _ => []) (openRoConn "za.sqlite3" Option.none) [("pokemons", [])]
      [SqlStmt.write "DROP TABLE pokemons", SqlStmt.write "DELETE FROM pokemons"] =
      [("pokemons", [])] :=
  readonly_store_immutable "za.sqlite3" Option.none (fun _ _ => []) [("pokemons", [])]
    [SqlStmt.write "DROP TABLE pokemons", SqlStmt.write "DELETE FROM pokemons"]
    (by intro s hs; simp at hs; rcases hs with h | h <;> simp [h, SqlStmt.isWrite])

/-- C3: the `scalar` helper consults only the first fetched row; it yields
`None` on an empty result, the bare value when the row projects exactly one
column, and the full row mapping when it projects more than one. -/
theorem scalar_first_row (execQuery : String → List Value → List Row)
    (q : String) (p : Params) (r : Row) (rest : List Row) (c : String) (v : Value)
    (hlen : r.length ≠ 1) :
    scalarHelper execQuery q p = scalarOfRows (execQuery q (normalizeParams p)) ∧
    scalarOfRows [] = Value.none ∧
    scalarOfRows ([(c, v)] :: rest) = v ∧
    scalarOfRows (r :: rest) = Value.dict r ∧
    (∀ (r2 : Row) (rest2 : List Row), scalarOfRows (r2 :: rest2) = scalarOfRows [r2]) := by
  refine ⟨rfl, rfl, rfl, ?_, ?_⟩
  · rcases r with _ | ⟨a, _ | ⟨b, tl⟩⟩
    · rfl
    · exact absurd rfl hlen
    · rfl
  · intro r2 rest2
    rcases r2 with _ | ⟨a, _ | ⟨b, tl⟩⟩ <;> rfl

theorem scalar_first_row_witness :
    scalarHelper (fun _ _ => []) "SELECT 1" (Params.other (Value.int 5)) =
      scalarOfRows ((fun (_ : String) (_ : List Value) => ([] : List Row)) "SELECT 1"
        (normalizeParams (Params.other (Value.int 5)))) ∧
    scalarOfRows [] = Value.none ∧
    scalarOfRows ([("n", Value.int 7)] :: [[("x", Value.none)]]) = Value.int 7 ∧
    scalarOfRows ([("a", Value.int 1), ("b", Value.int 2)] :: [[("x", Value.none)]]) =
      Value.dict [("a", Value.int 1), ("b", Value.int 2)] ∧
    (∀ (r2 : Row) (rest2 : List Row), scalarOfRows (r2 :: rest2) = scalarOfRows [r2]) :=
  scalar_first_row (fun _ _ => []) "SELECT 1" (Params.other (Value.int 5))
    [("a", Value.int 1), ("b", Value.int 2)] [[("x", Value.none)]] "n" (Value.int 7)
    (by decide)

/-- C4: on any snippet or environment-construction failure the worker sends
exactly one message, tagged failed and carrying the description; the
supervisor relays that description unchanged with `result = None` and
`stdout = ""`; and on every message the worker can send, the supervisor
returns a structured outcome rather than raising. -/
theorem worker_failure_relayed (e : String) (t : Nat) (r : Except String RunOut) :
    workerMsg (Except.error e) =
      QMsg.pyDict (some (Value.bool false)) (some (Value.str e)) Option.none ∧
    supervise (WorkerObs.received (workerMsg (Except.error e))) t =
      Except.ok { result := Value.none, stdout := "", error := some e } ∧
    (∃ o, supervise (WorkerObs.received (workerMsg r)) t = Except.ok o) := by
  refine ⟨rfl, rfl, ?_⟩
  cases r with
  | ok out => exact ⟨_, rfl⟩
  | error e2 => exact ⟨_, rfl⟩

/-- C5: worker exited with an empty channel → synthesized outcome
`result = None`, `stdout = ""`, `error = "no result (crash or empty output)"`. -/
theorem crash_empty_channel (t : Nat) :
    supervise WorkerObs.exitedEmpty t =
      Except.ok { result := Value.none, stdout := "",
                  error := some "no result (crash or empty output)" } := rfl

/-- C6: on success the stdout carried in the worker's message is the capped
stdout, and the cap bounds it to at most 10000 characters, whatever the
snippet printed. -/
theorem stdout_capped (out : RunOut) :
    workerMsg (Except.ok out) =
      QMsg.pyDict (some (Value.bool true)) Option.none
        (some { stdout := capStdout out.stdout, result := out.result }) ∧
    (capStdout out.stdout).length ≤ 10000 := by
  refine ⟨rfl, ?_⟩
  show (out.stdout.data.take 10000).length ≤ 10000
  simp [List.length_take]

/-- C7: the namespace `run_user_code` builds starts with `result = None`,
and a snippet that leaves the `result` binding untouched produces the
outcome `result = None` together with its stdout. -/
theorem result_slot_default (args : Value)
    (snippet : Env → Except String (Env × String)) (env2 : Env) (out : String)
    (hrun : snippet (initialEnv args) = Except.ok (env2, out))
    (hpres : envLookup env2 "result" = envLookup (initialEnv args) "result") :
    envLookup (initialEnv args) "result" = some Value.none ∧
    runUserCode snippet args = Except.ok { stdout := out, result := Value.none } := by
  have hinit : envLookup (initialEnv args) "result" = some Value.none := rfl
  refine ⟨hinit, ?_⟩
  simp [runUserCode, hrun, hpres, hinit]

theorem result_slot_default_witness :
    envLookup (initialEnv (Value.dict [])) "result" = some Value.none ∧
    runUserCode (fun env => Except.ok (env, "hi")) (Value.dict []) =
      Except.ok { stdout := "hi", result := Value.none } :=
  result_slot_default (Value.dict []) (fun env => Except.ok (env, "hi"))
    (initialEnv (Value.dict [])) "hi" rfl rfl

/-- C8 counterexample: the snippet namespace contains the raw connection
handle `conn`, a name outside the claim's enumeration of what is exposed. -/
theorem conn_not_enumerated :
    "conn" ∈ (initialEnv (Value.dict [])).map Prod.fst ∧
    "conn" ∉ specEnumeratedNames := by
  constructor
  · decide
  · decide

/-- C8 amended: the namespace consists exactly of the enumerated names plus
the raw read-only connection handle `conn`; the builtin allowlist contains
none of the file-I/O / dynamic-execution / import / reflection entry
points. -/
theorem env_names_exact (args : Value) :
    (initialEnv args).map Prod.fst =
      ["__builtins__", "math", "statistics", "json", "re", "conn",
       "sql", "scalar", "args", "result"] ∧
    (∀ n ∈ (initialEnv args).map Prod.fst, n ∈ specEnumeratedNames ∨ n = "conn") ∧
    (∀ n ∈ specEnumeratedNames, n ∈ (initialEnv args).map Prod.fst) ∧
    "open" ∉ safeBuiltinNames ∧ "exec" ∉ safeBuiltinNames ∧
    "eval" ∉ safeBuiltinNames ∧ "__import__" ∉ safeBuiltinNames ∧
    "getattr" ∉ safeBuiltinNames ∧ "compile" ∉ safeBuiltinNames := by
  have hmap : (initialEnv args).map Prod.fst =
      ["__builtins__", "math", "statistics", "json", "re", "conn",
       "sql", "scalar", "args", "result"] := rfl
  refine ⟨hmap, ?_, ?_, by decide, by decide, by decide, by decide, by decide, by decide⟩
  · rw [hmap]; decide
  · rw [hmap]; decide

/-- C9: a `params` argument that is not a list or tuple is wrapped into a
one-element tuple, so for both `sql` and `scalar` a bare scalar behaves
exactly like the one-element sequence containing it. -/
theorem bare_param_wrapped (execQuery : String → List Value → List Row)
    (q : String) (v : Value) :
    normalizeParams (Params.other v) = [v] ∧
    sqlHelper execQuery q (Params.other v) = sqlHelper execQuery q (Params.tuple [v]) ∧
    sqlHelper execQuery q (Params.other v) = sqlHelper execQuery q (Params.list [v]) ∧
    scalarHelper execQuery q (Params.other v) = scalarHelper execQuery q (Params.tuple [v]) ∧
    scalarHelper execQuery q (Params.other v) = scalarHelper execQuery q (Params.list [v]) :=
  ⟨rfl, rfl, rfl, rfl, rfl⟩

/-- C10 counterexample: on a non-mapping message the supervisor does not
return the `"unknown error"` outcome — the attribute access
`msg.get("error", ...)` on the non-mapping raises, so the call ends in an
exception. -/
theorem nonmapping_message_raises :
    supervise (WorkerObs.received QMsg.notDict) 8 =
      Except.error "AttributeError: object has no attribute get" ∧
    supervise (WorkerObs.received QMsg.notDict) 8 ≠
      Except.ok { result := Value.none, stdout := "", error := some "unknown error" } :=
  ⟨rfl, fun h => Except.noConfusion h⟩

/-- C10 amended: a mapping message whose `ok` field is falsy and which
carries no error description yields the well-formed outcome
`result = None`, `stdout = ""`, `error = "unknown error"`; a non-mapping
message instead makes the supervisor raise. -/
theorem failure_without_description (t : Nat) (okField : Option Value)
    (dataField : Option RunOut) (hok : truthyOpt okField = false) :
    supervise (WorkerObs.received (QMsg.pyDict okField Option.none dataField)) t =
      Except.ok { result := Value.none, stdout := "",
                  error := some "unknown error" } := by
  simp [supervise, hok, pyStr, Option.getD]

theorem failure_without_description_witness :
    supervise (WorkerObs.received
        (QMsg.pyDict (some (Value.bool false)) Option.none Option.none)) 8 =
      Except.ok { result := Value.none, stdout := "",
                  error := some "unknown error" } :=
  failure_without_description 8 (some (Value.bool false)) Option.none rfl

end CodeEnv
